import Mathlib

/-!
Shallow embedding of rGunti/CarPi-Settings (src/carpisettings/init module).

The module defines a ConfigStore base class with generic typed readers, a
MemoryStore over a Python dict, an IniStore over configparser.ConfigParser,
and an optional RedisStore.  Stateful methods are embedded as pure functions
from the store value to an Except result (Python exceptions become
Except.error); logging calls are pure observability and are not modelled.

Modelling scope notes, stated once here:
* configparser is modelled at the RawConfigParser level faithful to CPython:
  sections plus the DEFAULT-section option table, option names passed through
  optionxform (str.lower, modelled for ASCII), get/getboolean fallback
  semantics, and set's routing of the empty or DEFAULT section name to the
  defaults table.  Value interpolation (BasicInterpolation, the treatment of
  percent signs inside values) is part of the external INI value grammar and
  is not modelled: values are taken as opaque interpolation-free strings.
* CPython int()/float() parsing is modelled on ASCII strings without
  underscore digit grouping; for float() only parse success/failure is
  modelled, since the IEEE-754 result value is never inspected by the code.
-/

/-- Python exception kinds raised by the code paths under study. -/
inductive PyErr where
  | typeError : PyErr
  | valueError : PyErr
  | noSectionError : String → PyErr
deriving DecidableEq, Repr

deriving instance DecidableEq for Except

/-- Python values that callers pass to write_value (parameter typed Any in
the source); pyStr mirrors Python str() on them. -/
inductive PyVal where
  | str : String → PyVal
  | int : Int → PyVal
  | bool : Bool → PyVal
deriving DecidableEq, Repr

/-- Python str() on the modelled values: strings unchanged, ints in decimal,
booleans as True/False. -/
def pyStr : PyVal → String
  | PyVal.str s => s
  | PyVal.int n => toString n
  | PyVal.bool true => "True"
  | PyVal.bool false => "False"

/-- Lookup in an insertion-ordered association list, as a Python dict lookup. -/
def assocFind {α : Type} : List (String × α) → String → Option α
  | [], _ => none
  | (k, v) :: rest, key => if key = k then some v else assocFind rest key

/-- Python dict assignment d[k] = v: replace the value in place if the key is
present, append otherwise. -/
def assocSet {α : Type} : List (String × α) → String → α → List (String × α)
  | [], key, v => [(key, v)]
  | (k, w) :: rest, key, v =>
      if key = k then (k, v) :: rest else (k, w) :: assocSet rest key v

/-- Split a character list at the first occurrence of sep: returns the part
before and after it, or none when sep does not occur. -/
def splitFirst (sep : Char) : List Char → Option (List Char × List Char)
  | [] => none
  | c :: cs =>
      if c = sep then some ([], cs)
      else
        match splitFirst sep cs with
        | none => none
        | some (s, f) => some (c :: s, f)

/-- IniStore._parse_key: key.index giving the first dot, section before it,
field after it; str.index raises ValueError when no dot occurs. -/
def IniStore.parse_key (key : String) : Except PyErr (String × String) :=
  match splitFirst '.' key.data with
  | none => Except.error PyErr.valueError
  | some (s, f) => Except.ok (String.mk s, String.mk f)

/-- MemoryStore state: the _dict instance attribute, a Python dict holding
the written values as given (the source does not stringify on write). -/
structure MemoryStore where
  dict : List (String × PyVal)
deriving DecidableEq, Repr

/-- The call self.dict.get(key, default=default) in the source.  CPython's
dict.get is a positional-only C function (signature get(self, key,
default=None, /)); invoking it with the keyword argument default raises
TypeError unconditionally, before any lookup happens. -/
def dictGetWithKeywordDefault (_d : List (String × PyVal)) (_key : String)
    (_dflt : Option PyVal) : Except PyErr (Option PyVal) :=
  Except.error PyErr.typeError

/-- MemoryStore.read_value: forwards to dict.get called with a keyword
default argument. -/
def MemoryStore.read_value (st : MemoryStore) (key : String)
    (dflt : Option PyVal) : Except PyErr (Option PyVal) :=
  dictGetWithKeywordDefault st.dict key dflt

/-- MemoryStore.write_value: plain dict assignment, the value stored as
given. -/
def MemoryStore.write_value (st : MemoryStore) (key : String) (v : PyVal) :
    MemoryStore :=
  { st with dict := assocSet st.dict key v }

/-- MemoryStore.save_config: logs a warning that saving is a NOOP and does
nothing else: no file-system access, no state change, no exception. -/
def MemoryStore.save_config (st : MemoryStore) : Except PyErr MemoryStore :=
  Except.ok st

/-- Python str.lower on the ASCII strings in use, written as a map over the
character list so that it evaluates by kernel reduction. -/
def strLower (s : String) : String := String.mk (s.data.map Char.toLower)

/-- configparser's optionxform: str.lower applied to option names on both
get and set (modelled for ASCII like the keys in use). -/
def optionxform (s : String) : String := strLower s

/-- The state of a configparser.ConfigParser document: the DEFAULT section's
option table (ConfigParser._defaults) and the named sections in file order
(ConfigParser._sections); reading a file never places a section literally
named DEFAULT into the named-section table. -/
structure IniDoc where
  defaults : List (String × String)
  sections : List (String × List (String × String))
deriving DecidableEq, Repr

/-- ConfigParser.get(section, option, fallback=f): resolve the section dict
(a missing section falls back unless it is the DEFAULT name), then look the
lowercased option up in the chain map of the section dict over the defaults
table, falling back when absent. -/
def IniDoc.get (d : IniDoc) (sec opt : String) (fallback : Option String) :
    Option String :=
  match assocFind d.sections sec with
  | some sd =>
      match assocFind sd (optionxform opt) with
      | some v => some v
      | none =>
          match assocFind d.defaults (optionxform opt) with
          | some v => some v
          | none => fallback
  | none =>
      if sec = "DEFAULT" then
        match assocFind d.defaults (optionxform opt) with
        | some v => some v
        | none => fallback
      else fallback

/-- RawConfigParser.set(section, option, value): an empty or DEFAULT section
name selects the defaults table, otherwise the named section's dict is
required and NoSectionError is raised when it is missing; the lowercased
option is then assigned. -/
def IniDoc.set (d : IniDoc) (sec opt v : String) : Except PyErr IniDoc :=
  if sec = "" ∨ sec = "DEFAULT" then
    Except.ok { d with defaults := assocSet d.defaults (optionxform opt) v }
  else
    match assocFind d.sections sec with
    | some sd =>
        Except.ok
          { d with sections := assocSet d.sections sec (assocSet sd (optionxform opt) v) }
    | none => Except.error (PyErr.noSectionError sec)

/-- IniStore state: the parsed ConfigParser document and the originating
file path kept for save_config. -/
structure IniStore where
  config : IniDoc
  filePath : String
deriving DecidableEq, Repr

/-- IniStore.read_value: split the key, then ConfigParser.get with the
caller's default as fallback. -/
def IniStore.read_value (st : IniStore) (key : String) (dflt : Option String) :
    Except PyErr (Option String) :=
  match IniStore.parse_key key with
  | Except.error e => Except.error e
  | Except.ok (sec, opt) => Except.ok (st.config.get sec opt dflt)

/-- IniStore.write_value: split the key and ConfigParser.set the stringified
value. -/
def IniStore.write_value (st : IniStore) (key : String) (v : PyVal) :
    Except PyErr IniStore :=
  match IniStore.parse_key key with
  | Except.error e => Except.error e
  | Except.ok (sec, opt) =>
      match st.config.set sec opt (pyStr v) with
      | Except.error e => Except.error e
      | Except.ok d => Except.ok { st with config := d }

/-- ConfigParser._convert_to_boolean: look the lowercased value up in
BOOLEAN_STATES (1/yes/true/on are true, 0/no/false/off are false), raising
ValueError on anything else. -/
def convertToBoolean (v : String) : Except PyErr Bool :=
  let lv := strLower v
  if lv = "1" ∨ lv = "yes" ∨ lv = "true" ∨ lv = "on" then Except.ok true
  else if lv = "0" ∨ lv = "no" ∨ lv = "false" ∨ lv = "off" then Except.ok false
  else Except.error PyErr.valueError

/-- IniStore.read_bool_value: split the key and ConfigParser.getboolean with
fallback: an absent section or option yields the default, a present value is
converted (conversion failure propagates past the fallback). -/
def IniStore.read_bool_value (st : IniStore) (key : String) (dflt : Bool) :
    Except PyErr Bool :=
  match IniStore.parse_key key with
  | Except.error e => Except.error e
  | Except.ok (sec, opt) =>
      match st.config.get sec opt none with
      | none => Except.ok dflt
      | some v => convertToBoolean v

/-- ASCII whitespace stripped by Python number parsing. -/
def isPyWs (c : Char) : Bool := c = ' ' ∨ c = '\t' ∨ c = '\n' ∨ c = '\r'

/-- Strip leading and trailing whitespace from a character list. -/
def trimWs (l : List Char) : List Char :=
  ((l.dropWhile isPyWs).reverse.dropWhile isPyWs).reverse

/-- A nonempty run of ASCII decimal digits. -/
def digitsOk (l : List Char) : Bool := !l.isEmpty ∧ l.all Char.isDigit

/-- Numeric value of a digit run. -/
def digitsToNat (l : List Char) : Nat :=
  l.foldl (fun acc c => 10 * acc + (c.toNat - 48)) 0

/-- CPython int(str): strip whitespace, one optional sign, then a nonempty
decimal digit run; anything else raises ValueError. -/
def pyInt (s : String) : Except PyErr Int :=
  match trimWs s.data with
  | '+' :: rest =>
      if digitsOk rest then Except.ok (Int.ofNat (digitsToNat rest))
      else Except.error PyErr.valueError
  | '-' :: rest =>
      if digitsOk rest then Except.ok (-(Int.ofNat (digitsToNat rest)))
      else Except.error PyErr.valueError
  | rest =>
      if digitsOk rest then Except.ok (Int.ofNat (digitsToNat rest))
      else Except.error PyErr.valueError

/-- Optionally consume one leading sign character. -/
def dropSign : List Char → List Char
  | '+' :: rest => rest
  | '-' :: rest => rest
  | l => l

/-- Mantissa of a float literal: digits, optionally with one decimal point,
with digits present on at least one side of it. -/
def mantissaOk (l : List Char) : Bool :=
  match splitFirst '.' l with
  | none => digitsOk l
  | some (ip, fp) =>
      (ip.all Char.isDigit ∧ fp.all Char.isDigit) ∧ (!ip.isEmpty ∨ !fp.isEmpty)

/-- Body of a float literal after the sign: an infinity or nan spelling, or
a mantissa with an optional signed decimal exponent. -/
def floatBodyOk (l : List Char) : Bool :=
  let low := l.map Char.toLower
  if low = "inf".data ∨ low = "infinity".data ∨ low = "nan".data then true
  else
    match splitFirst 'e' low with
    | none => mantissaOk low
    | some (m, ex) => mantissaOk m ∧ digitsOk (dropSign ex)

/-- CPython float(str): whitespace stripped, one optional sign, then a float
literal body; only parse success or ValueError is modelled, the IEEE-754
value itself never being inspected by the code under study. -/
def pyFloat (s : String) : Except PyErr Unit :=
  if floatBodyOk (dropSign (trimWs s.data)) then Except.ok ()
  else Except.error PyErr.valueError

/-- ConfigStore.read_int_value as defined on the base class: call the
backend's read_value with no default, return the caller's default when that
yields None, otherwise apply int() to the value.  The backend's raw reader
is passed explicitly, standing for the dynamically dispatched
self.read_value. -/
def ConfigStore.read_int_value (rawRead : String → Except PyErr (Option String))
    (key : String) (dflt : Option Int) : Except PyErr (Option Int) :=
  match rawRead key with
  | Except.error e => Except.error e
  | Except.ok none => Except.ok dflt
  | Except.ok (some v) =>
      match pyInt v with
      | Except.error e => Except.error e
      | Except.ok n => Except.ok (some n)

/-- ConfigStore.read_float_value on the base class: as read_int_value with
float() in place of int(). -/
def ConfigStore.read_float_value (rawRead : String → Except PyErr (Option String))
    (key : String) (dflt : Option Unit) : Except PyErr (Option Unit) :=
  match rawRead key with
  | Except.error e => Except.error e
  | Except.ok none => Except.ok dflt
  | Except.ok (some v) =>
      match pyFloat v with
      | Except.error e => Except.error e
      | Except.ok u => Except.ok (some u)

/-- ConfigStore.read_bool_value on the base class: the default when the raw
value is None, otherwise the total comparison of the value with the literal
string 1. -/
def ConfigStore.read_bool_value (rawRead : String → Except PyErr (Option String))
    (key : String) (dflt : Bool) : Except PyErr Bool :=
  match rawRead key with
  | Except.error e => Except.error e
  | Except.ok none => Except.ok dflt
  | Except.ok (some v) => Except.ok (v == "1")

/-- A caller-supplied, already-connected Redis client object (only its
identity matters to construction). -/
structure RedisHandle where
  id : Nat
deriving DecidableEq, Repr

/-- The connection established by RedisStore construction: reuse of the
given handle, Redis.from_url on the given URL, or a fresh client built by
RedisStore._build_redis from host/port/db/password. -/
inductive ConnPath where
  | reuse : RedisHandle → ConnPath
  | fromUrl : String → ConnPath
  | build : String → Int → Int → Option String → ConnPath
deriving DecidableEq, Repr

/-- Python truthiness of the optional url argument: None and the empty
string are falsy. -/
def truthyStr : Option String → Bool
  | none => false
  | some u => !(u == "")

/-- The branch structure of RedisStore's constructor: if redis (a client
object, truthy whenever supplied) use it; elif url (truthy when a nonempty
string) connect from the URL; else build a client from the discrete
parameters. -/
def RedisStore.selectConn (redis : Option RedisHandle) (url : Option String)
    (host : String) (port db : Int) (password : Option String) : ConnPath :=
  match redis with
  | some r => ConnPath.reuse r
  | none =>
      if truthyStr url then ConnPath.fromUrl (url.getD "")
      else ConnPath.build host port db password

/-- RedisStore construction with every keyword argument left at its declared
default: host 127.0.0.1, port 6379, db 0, password None. -/
def RedisStore.selectConnDefaults (redis : Option RedisHandle)
    (url : Option String) : ConnPath :=
  RedisStore.selectConn redis url "127.0.0.1" 6379 0 none

theorem splitFirst_some_spec (sep : Char) :
    ∀ l s f : List Char, splitFirst sep l = some (s, f) →
      sep ∉ s ∧ l = s ++ sep :: f := by
  intro l
  induction l with
  | nil => intro s f h; simp [splitFirst] at h
  | cons c cs ih =>
    intro s f h
    by_cases hc : c = sep
    · subst hc
      simp [splitFirst] at h
      obtain ⟨hs, hf⟩ := h
      subst hs; subst hf
      exact ⟨by simp, rfl⟩
    · simp only [splitFirst, if_neg hc] at h
      cases hsp : splitFirst sep cs with
      | none => rw [hsp] at h; simp at h
      | some p =>
        obtain ⟨s', f'⟩ := p
        rw [hsp] at h
        simp only [Option.some.injEq, Prod.mk.injEq] at h
        obtain ⟨hs, hf⟩ := h
        subst hs; subst hf
        obtain ⟨h1, h2⟩ := ih s' f' hsp
        refine ⟨?_, by rw [h2]; rfl⟩
        intro hmem
        rcases List.mem_cons.mp hmem with h3 | h3
        · exact hc h3.symm
        · exact h1 h3

theorem assocFind_assocSet {α : Type} (l : List (String × α)) (k k' : String) (v : α) :
    assocFind (assocSet l k v) k' = if k' = k then some v else assocFind l k' := by
  induction l with
  | nil => simp [assocFind, assocSet]
  | cons a rest ih =>
    obtain ⟨ak, av⟩ := a
    simp only [assocSet, assocFind]
    by_cases hka : k = ak
    · subst hka
      simp only [if_pos rfl, assocFind]
      by_cases h1 : k' = k
      · simp [h1]
      · simp [h1, assocFind]
    · simp only [if_neg hka, assocFind, ih]
      by_cases h1 : k' = ak
      · subst h1
        have hnk : ¬(k' = k) := fun h => hka h.symm
        simp [hnk]
      · simp [h1]

/-- C1: the claim says MemoryStore.read_value returns the stored value, or
the default when the key was never written, returning normally in both
cases.  The code instead calls dict.get with the keyword argument default,
which CPython's positional-only dict.get rejects, so read_value raises
TypeError on the never-written key and on the previously written key alike:
the claim is the documented intent and the code a slip. -/
theorem C1_memory_read_value_raises :
    MemoryStore.read_value ⟨[]⟩ "k" (some (PyVal.str "D")) =
      Except.error PyErr.typeError ∧
    MemoryStore.read_value ⟨[("k", PyVal.str "v")]⟩ "k" (some (PyVal.str "D")) =
      Except.error PyErr.typeError :=
  ⟨rfl, rfl⟩

/-- C2: the claim says write_value then read_value round-trips to the
stringified value on MemoryStore and on IniStore with the section present.
The IniStore half behaves as claimed, but on MemoryStore the read after the
write raises TypeError (dict.get called with a keyword default), so the
round-trip law fails at its simplest instance. -/
theorem C2_roundtrip_at_failing_input :
    MemoryStore.read_value (MemoryStore.write_value ⟨[]⟩ "a" (PyVal.str "b"))
      "a" none = Except.error PyErr.typeError ∧
    IniStore.write_value ⟨⟨[], [("db", [])]⟩, "c.ini"⟩ "db.host" (PyVal.str "b") =
      Except.ok ⟨⟨[], [("db", [("host", "b")])]⟩, "c.ini"⟩ ∧
    IniStore.read_value ⟨⟨[], [("db", [("host", "b")])]⟩, "c.ini"⟩ "db.host" none =
      Except.ok (some "b") := by
  refine ⟨rfl, ?_, ?_⟩ <;> decide

/-- C3: parse_key splits a key at the first dot into (section, field): the
section contains no dot, section ++ dot ++ field rebuilds the key, further
dots stay in the field; parse_key db.host gives (db, host); a key without a
dot makes str.index raise ValueError instead of returning a pair. -/
theorem C3_parse_key_first_dot (key s f : String)
    (h : IniStore.parse_key key = Except.ok (s, f)) :
    ('.' ∉ s.data ∧ s ++ "." ++ f = key) ∧
    IniStore.parse_key "db.host" = Except.ok ("db", "host") ∧
    IniStore.parse_key "a.b.c" = Except.ok ("a", "b.c") ∧
    IniStore.parse_key "nosep" = Except.error PyErr.valueError := by
  refine ⟨?_, by decide, by decide, by decide⟩
  unfold IniStore.parse_key at h
  cases hsp : splitFirst '.' key.data with
  | none => rw [hsp] at h; simp at h
  | some p =>
    obtain ⟨sl, fl⟩ := p
    rw [hsp] at h
    simp only [Except.ok.injEq, Prod.mk.injEq] at h
    obtain ⟨hs, hf⟩ := h
    obtain ⟨hmem, heq⟩ := splitFirst_some_spec '.' key.data sl fl hsp
    subst hs; subst hf
    refine ⟨hmem, ?_⟩
    show String.mk ((sl ++ ['.']) ++ fl) = key
    have h2 : (sl ++ ['.']) ++ fl = key.data := by
      rw [heq, List.append_assoc]; rfl
    rw [h2]

/-- Witness for C3 at the concrete key db.host. -/
theorem C3_witness :
    ('.' ∉ ("db" : String).data ∧ "db" ++ "." ++ "host" = "db.host") ∧
    IniStore.parse_key "db.host" = Except.ok ("db", "host") ∧
    IniStore.parse_key "a.b.c" = Except.ok ("a", "b.c") ∧
    IniStore.parse_key "nosep" = Except.error PyErr.valueError :=
  C3_parse_key_first_dot "db.host" "db" "host" (by decide)

/-- C9: MemoryStore.save_config only logs a warning: it raises no exception,
touches no file, and returns the store state unchanged. -/
theorem C9_memory_save_config (st : MemoryStore) :
    MemoryStore.save_config st = Except.ok st := rfl

/-- C4: with a well-formed key, IniStore.read_value returns the default
without raising when the section is absent or when the field is absent from
the section and from the DEFAULT table, and returns the stored string when
section and field are both present. -/
theorem C4_ini_read_value_default (st : IniStore) (key sec opt D : String)
    (hk : IniStore.parse_key key = Except.ok (sec, opt)) :
    (assocFind st.config.sections sec = none → sec ≠ "DEFAULT" →
        st.read_value key (some D) = Except.ok (some D)) ∧
    (∀ sd, assocFind st.config.sections sec = some sd →
        assocFind sd (optionxform opt) = none →
        assocFind st.config.defaults (optionxform opt) = none →
        st.read_value key (some D) = Except.ok (some D)) ∧
    (∀ sd v, assocFind st.config.sections sec = some sd →
        assocFind sd (optionxform opt) = some v →
        st.read_value key (some D) = Except.ok (some v)) := by
  unfold IniStore.read_value
  rw [hk]
  refine ⟨?_, ?_, ?_⟩
  · intro h1 h2
    simp only [IniDoc.get, h1, if_neg h2]
  · intro sd h1 h2 h3
    simp only [IniDoc.get, h1, h2, h3]
  · intro sd v h1 h2
    simp only [IniDoc.get, h1, h2]

/-- Witness for C4 on a one-section document: absent section, absent field
and present field. -/
theorem C4_witness :
    IniStore.read_value ⟨⟨[], [("db", [("host", "x")])]⟩, "c.ini"⟩ "nope.k" (some "D") =
      Except.ok (some "D") ∧
    IniStore.read_value ⟨⟨[], [("db", [("host", "x")])]⟩, "c.ini"⟩ "db.port" (some "D") =
      Except.ok (some "D") ∧
    IniStore.read_value ⟨⟨[], [("db", [("host", "x")])]⟩, "c.ini"⟩ "db.host" (some "D") =
      Except.ok (some "x") := by
  refine ⟨(C4_ini_read_value_default _ "nope.k" "nope" "k" "D" (by decide)).1
            (by decide) (by decide),
          (C4_ini_read_value_default _ "db.port" "db" "port" "D" (by decide)).2.1
            [("host", "x")] (by decide) (by decide) (by decide),
          (C4_ini_read_value_default _ "db.host" "db" "host" "D" (by decide)).2.2
            [("host", "x")] "x" (by decide) (by decide)⟩

/-- C6: the base-class typed readers return the caller's default unconverted
when the raw read reports the value absent, and propagate the int()/float()
conversion error when a raw value is present but unparseable (the base bool
reader's encoding is total, so it has no conversion failure). -/
theorem C6_generic_typed_readers (rawRead : String → Except PyErr (Option String))
    (key : String) (dI : Option Int) (dF : Option Unit) (dB : Bool) (v : String) :
    (rawRead key = Except.ok none →
        ConfigStore.read_int_value rawRead key dI = Except.ok dI ∧
        ConfigStore.read_float_value rawRead key dF = Except.ok dF ∧
        ConfigStore.read_bool_value rawRead key dB = Except.ok dB) ∧
    (rawRead key = Except.ok (some v) → pyInt v = Except.error PyErr.valueError →
        ConfigStore.read_int_value rawRead key dI = Except.error PyErr.valueError) ∧
    (rawRead key = Except.ok (some v) → pyFloat v = Except.error PyErr.valueError →
        ConfigStore.read_float_value rawRead key dF = Except.error PyErr.valueError) := by
  refine ⟨?_, ?_, ?_⟩
  · intro h
    unfold ConfigStore.read_int_value ConfigStore.read_float_value
      ConfigStore.read_bool_value
    rw [h]
    exact ⟨rfl, rfl, rfl⟩
  · intro h hp
    unfold ConfigStore.read_int_value
    rw [h]
    simp only [hp]
  · intro h hp
    unfold ConfigStore.read_float_value
    rw [h]
    simp only [hp]

/-- A sample backend raw reader used to instantiate the base-contract
theorems: the key a holds the unparseable string zz, all other keys are
absent. -/
def rawReadSample : String → Except PyErr (Option String) :=
  fun k => if k = "a" then Except.ok (some "zz") else Except.ok none

/-- Witness for C6 on rawReadSample: defaults pass through on the absent
key b, int and float conversion of the present value zz error out. -/
theorem C6_witness :
    ConfigStore.read_int_value rawReadSample "b" (some 5) = Except.ok (some 5) ∧
    ConfigStore.read_float_value rawReadSample "b" (some ()) = Except.ok (some ()) ∧
    ConfigStore.read_bool_value rawReadSample "b" true = Except.ok true ∧
    ConfigStore.read_int_value rawReadSample "a" none = Except.error PyErr.valueError ∧
    ConfigStore.read_float_value rawReadSample "a" none = Except.error PyErr.valueError := by
  obtain ⟨h1, -, -⟩ := C6_generic_typed_readers rawReadSample "b" (some 5) (some ()) true "zz"
  obtain ⟨-, g2, g3⟩ := C6_generic_typed_readers rawReadSample "a" none none true "zz"
  obtain ⟨a1, a2, a3⟩ := h1 (by decide)
  exact ⟨a1, a2, a3, g2 (by decide) (by decide), g3 (by decide) (by decide)⟩

/-- C7: the base-contract bool reader is true exactly on the literal string
1 (any other present string gives false), while IniStore's getboolean
accepts the INI-native spellings: yes/true/1 parse true and no/false/0
parse false. -/
theorem C7_bool_encodings (rawRead : String → Except PyErr (Option String))
    (key : String) (dB : Bool) (v : String) (st : IniStore)
    (ikey sec opt : String) (sd : List (String × String)) (w : String) (dI : Bool)
    (hraw : rawRead key = Except.ok (some v))
    (hk : IniStore.parse_key ikey = Except.ok (sec, opt))
    (hsec : assocFind st.config.sections sec = some sd)
    (hopt : assocFind sd (optionxform opt) = some w) :
    (ConfigStore.read_bool_value rawRead key dB = Except.ok true ↔ v = "1") ∧
    ((w = "yes" ∨ w = "true" ∨ w = "1") → st.read_bool_value ikey dI = Except.ok true) ∧
    ((w = "no" ∨ w = "false" ∨ w = "0") → st.read_bool_value ikey dI = Except.ok false) := by
  have hget : st.config.get sec opt none = some w := by
    simp only [IniDoc.get, hsec, hopt]
  refine ⟨?_, ?_, ?_⟩
  · unfold ConfigStore.read_bool_value
    rw [hraw]
    constructor
    · intro h
      simp only [Except.ok.injEq] at h
      exact eq_of_beq h
    · intro h
      subst h
      rfl
  · intro hw
    unfold IniStore.read_bool_value
    rw [hk]
    simp only [hget]
    rcases hw with h | h | h <;> subst h <;> rfl
  · intro hw
    unfold IniStore.read_bool_value
    rw [hk]
    simp only [hget]
    rcases hw with h | h | h <;> subst h <;> rfl

/-- C8: RedisStore construction takes exactly one path in priority order: a
supplied client handle wins even over a supplied URL, a nonempty URL wins
next, and otherwise a client is built from the discrete parameters, whose
declared defaults are host 127.0.0.1, port 6379, db 0 and no password (an
empty URL string is falsy and also falls through to the discrete path). -/
theorem C8_redis_connection_priority (r : RedisHandle) (u : String)
    (url2 : Option String) (host : String) (port db : Int) (pw : Option String)
    (hu : u ≠ "") :
    RedisStore.selectConn (some r) url2 host port db pw = ConnPath.reuse r ∧
    RedisStore.selectConn none (some u) host port db pw = ConnPath.fromUrl u ∧
    RedisStore.selectConn none none host port db pw = ConnPath.build host port db pw ∧
    RedisStore.selectConn none (some "") host port db pw = ConnPath.build host port db pw ∧
    RedisStore.selectConnDefaults none none = ConnPath.build "127.0.0.1" 6379 0 none := by
  refine ⟨rfl, ?_, rfl, rfl, rfl⟩
  unfold RedisStore.selectConn truthyStr
  have hb : (u == "") = false := by
    exact beq_eq_false_iff_ne.mpr hu
  simp [hb]

/-- Witness for C8 with a concrete handle and URL. -/
theorem C8_witness :
    RedisStore.selectConn (some ⟨7⟩) (some "redis:host") "h" 1 2 (some "p") =
      ConnPath.reuse ⟨7⟩ ∧
    RedisStore.selectConn none (some "redis:host") "h" 1 2 (some "p") =
      ConnPath.fromUrl "redis:host" ∧
    RedisStore.selectConn none none "h" 1 2 (some "p") = ConnPath.build "h" 1 2 (some "p") ∧
    RedisStore.selectConn none (some "") "h" 1 2 (some "p") = ConnPath.build "h" 1 2 (some "p") ∧
    RedisStore.selectConnDefaults none none = ConnPath.build "127.0.0.1" 6379 0 none :=
  C8_redis_connection_priority ⟨7⟩ "redis:host" (some "redis:host") "h" 1 2 (some "p")
    (by decide)

/-- C5 counterexample: the key .x names the empty section, which does not
exist in the empty document, yet write_value succeeds: configparser's set
routes an empty (or DEFAULT) section name to the defaults table instead of
raising NoSectionError, so the claim that a write to a nonexistent section
always fails is false. -/
theorem C5_counterexample :
    assocFind (IniDoc.mk [] []).sections "" = none ∧
    IniStore.parse_key ".x" = Except.ok ("", "x") ∧
    IniStore.write_value ⟨⟨[], []⟩, "c.ini"⟩ ".x" (PyVal.str "v") =
      Except.ok ⟨⟨[("x", "v")], []⟩, "c.ini"⟩ := by
  refine ⟨rfl, by decide, by decide⟩

/-- C5 amended: write_value fails with NoSectionError (leaving the store
unchanged, no successful result being produced) exactly when the section
named by the key is nonempty, is not DEFAULT, and is absent from the
document; with the section present it succeeds and sets the stringified
value at the lowercased field; with an empty or DEFAULT section name it
succeeds and sets the stringified value in the defaults table. -/
theorem C5_ini_write_value_sections (st : IniStore) (key sec opt : String) (v : PyVal)
    (hk : IniStore.parse_key key = Except.ok (sec, opt)) :
    (sec ≠ "" → sec ≠ "DEFAULT" → assocFind st.config.sections sec = none →
        st.write_value key v = Except.error (PyErr.noSectionError sec)) ∧
    (∀ sd, assocFind st.config.sections sec = some sd → sec ≠ "" → sec ≠ "DEFAULT" →
        st.write_value key v = Except.ok
          ⟨⟨st.config.defaults,
            assocSet st.config.sections sec (assocSet sd (optionxform opt) (pyStr v))⟩,
           st.filePath⟩) ∧
    ((sec = "" ∨ sec = "DEFAULT") →
        st.write_value key v = Except.ok
          ⟨⟨assocSet st.config.defaults (optionxform opt) (pyStr v),
            st.config.sections⟩, st.filePath⟩) := by
  unfold IniStore.write_value
  rw [hk]
  refine ⟨?_, ?_, ?_⟩
  · intro h1 h2 h3
    have hb : ¬(sec = "" ∨ sec = "DEFAULT") := by tauto
    simp only [IniDoc.set, if_neg hb, h3]
  · intro sd h3 h1 h2
    have hb : ¬(sec = "" ∨ sec = "DEFAULT") := by tauto
    simp only [IniDoc.set, if_neg hb, h3]
  · intro h
    simp only [IniDoc.set, if_pos h]

/-- Witness for C5 amended: missing section db errors, present section db
takes the write, the empty section name writes into the defaults table. -/
theorem C5_witness :
    IniStore.write_value ⟨⟨[], []⟩, "c.ini"⟩ "db.host" (PyVal.str "v") =
      Except.error (PyErr.noSectionError "db") ∧
    IniStore.write_value ⟨⟨[], [("db", [])]⟩, "c.ini"⟩ "db.host" (PyVal.str "v") =
      Except.ok ⟨⟨[], [("db", [("host", "v")])]⟩, "c.ini"⟩ ∧
    IniStore.write_value ⟨⟨[], []⟩, "c.ini"⟩ ".x" (PyVal.str "v") =
      Except.ok ⟨⟨[("x", "v")], []⟩, "c.ini"⟩ := by
  refine ⟨(C5_ini_write_value_sections ⟨⟨[], []⟩, "c.ini"⟩ "db.host" "db" "host"
            (PyVal.str "v") (by decide)).1 (by decide) (by decide) rfl, ?_, ?_⟩
  · have h := (C5_ini_write_value_sections ⟨⟨[], [("db", [])]⟩, "c.ini"⟩ "db.host"
      "db" "host" (PyVal.str "v") (by decide)).2.1 [] rfl (by decide) (by decide)
    rw [h]
    decide
  · have h := (C5_ini_write_value_sections ⟨⟨[], []⟩, "c.ini"⟩ ".x" "" "x"
      (PyVal.str "v") (by decide)).2.2 (Or.inl rfl)
    rw [h]
    decide

theorem IniDoc.get_set_frame (d d' : IniDoc) (sec opt v sec' opt' : String)
    (D : Option String)
    (hset : d.set sec opt v = Except.ok d')
    (hcond : optionxform opt' ≠ optionxform opt ∨
             (sec ≠ "" ∧ sec ≠ "DEFAULT" ∧ sec' ≠ sec)) :
    d'.get sec' opt' D = d.get sec' opt' D := by
  unfold IniDoc.set at hset
  by_cases hb : sec = "" ∨ sec = "DEFAULT"
  · rw [if_pos hb] at hset
    injection hset with hd
    subst hd
    have ho : optionxform opt' ≠ optionxform opt := by
      rcases hcond with h | ⟨h1, h2, _⟩
      · exact h
      · rcases hb with hb | hb
        · exact absurd hb h1
        · exact absurd hb h2
    unfold IniDoc.get
    cases hks : assocFind d.sections sec' with
    | some sd =>
      simp only [hks]
      cases hko : assocFind sd (optionxform opt') with
      | some w => simp only [hko]
      | none =>
        simp only [hko, assocFind_assocSet, if_neg ho]
    | none =>
      simp only [hks]
      by_cases hdq : sec' = "DEFAULT"
      · simp only [if_pos hdq, assocFind_assocSet, if_neg ho]
      · simp only [if_neg hdq]
  · rw [if_neg hb] at hset
    push_neg at hb
    cases hfind : assocFind d.sections sec with
    | none =>
      rw [hfind] at hset
      exact absurd hset (by simp)
    | some sd =>
      rw [hfind] at hset
      injection hset with hd
      subst hd
      unfold IniDoc.get
      by_cases hs : sec' = sec
      · subst hs
        have ho : optionxform opt' ≠ optionxform opt := by
          rcases hcond with h | ⟨_, _, h3⟩
          · exact h
          · exact absurd rfl h3
        have h1 : assocFind (assocSet d.sections sec' (assocSet sd (optionxform opt) v))
            sec' = some (assocSet sd (optionxform opt) v) := by
          rw [assocFind_assocSet, if_pos rfl]
        simp only [h1, hfind, assocFind_assocSet, if_neg ho]
      · simp only [assocFind_assocSet, if_neg hs]

/-- C10 counterexample: configparser lowercases option names on both get and
set, so two keys whose parse_key results differ only in field-name case
address the same stored option: writing db.HOST changes what read_value
returns for db.host, falsifying the claimed frame condition. -/
theorem C10_counterexample :
    IniStore.parse_key "db.HOST" ≠ IniStore.parse_key "db.host" ∧
    IniStore.write_value ⟨⟨[], [("db", [("host", "old")])]⟩, "c.ini"⟩ "db.HOST"
      (PyVal.str "new") =
      Except.ok ⟨⟨[], [("db", [("host", "new")])]⟩, "c.ini"⟩ ∧
    IniStore.read_value ⟨⟨[], [("db", [("host", "old")])]⟩, "c.ini"⟩ "db.host" none =
      Except.ok (some "old") ∧
    IniStore.read_value ⟨⟨[], [("db", [("host", "new")])]⟩, "c.ini"⟩ "db.host" none =
      Except.ok (some "new") := by
  refine ⟨by decide, by decide, by decide, by decide⟩

/-- C10 amended: MemoryStore.write_value of key k leaves the result of
read_value unchanged on every other key (here both results are the same
TypeError, read_value never returning normally); a successful
IniStore.write_value of key k with parse (sec, opt) leaves read_value
unchanged on every well-formed key whose parse (sec2, opt2) satisfies
lower(opt2) differs from lower(opt), or sec is a real section name (nonempty
and not DEFAULT) differing from sec2 -- the correction the lowercasing and
defaults-table counterexamples force. -/
theorem C10_write_frame (mst : MemoryStore) (k k' : String) (v : PyVal)
    (dM : Option PyVal) (st st2 : IniStore) (key key' sec opt sec' opt' : String)
    (w : PyVal) (D : Option String)
    (_hne : k' ≠ k)
    (hk : IniStore.parse_key key = Except.ok (sec, opt))
    (hk' : IniStore.parse_key key' = Except.ok (sec', opt'))
    (hcond : optionxform opt' ≠ optionxform opt ∨
             (sec ≠ "" ∧ sec ≠ "DEFAULT" ∧ sec' ≠ sec))
    (hw : st.write_value key w = Except.ok st2) :
    MemoryStore.read_value (mst.write_value k v) k' dM = mst.read_value k' dM ∧
    st2.read_value key' D = st.read_value key' D := by
  refine ⟨rfl, ?_⟩
  unfold IniStore.write_value at hw
  rw [hk] at hw
  cases hset : st.config.set sec opt (pyStr w) with
  | error e => simp [hset] at hw
  | ok dnew =>
    simp only [hset, Except.ok.injEq] at hw
    have hfr := IniDoc.get_set_frame st.config dnew sec opt (pyStr w) sec' opt' D
      hset hcond
    rw [← hw]
    unfold IniStore.read_value
    rw [hk']
    simp only [hfr]

/-- Witness for C10 amended: an unrelated memory key, and an IniStore write
to db.host read back at db.port, whose lowercased fields differ. -/
theorem C10_witness :
    MemoryStore.read_value (MemoryStore.write_value ⟨[]⟩ "a" (PyVal.str "x")) "b" none =
      MemoryStore.read_value ⟨[]⟩ "b" none ∧
    IniStore.read_value ⟨⟨[], [("db", [("host", "new"), ("port", "1")])]⟩, "c.ini"⟩
      "db.port" none =
      IniStore.read_value ⟨⟨[], [("db", [("host", "old"), ("port", "1")])]⟩, "c.ini"⟩
      "db.port" none :=
  C10_write_frame ⟨[]⟩ "a" "b" (PyVal.str "x") none
    ⟨⟨[], [("db", [("host", "old"), ("port", "1")])]⟩, "c.ini"⟩
    ⟨⟨[], [("db", [("host", "new"), ("port", "1")])]⟩, "c.ini"⟩
    "db.host" "db.port" "db" "host" "db" "port" (PyVal.str "new") none
    (by decide) (by decide) (by decide) (Or.inl (by decide)) (by decide)

/-- Witness for C7: the base reader on the present non-1 value zz, and an
IniStore holding a yes and a no flag. -/
theorem C7_witness :
    (ConfigStore.read_bool_value rawReadSample "a" false = Except.ok true ↔
      ("zz" : String) = "1") ∧
    IniStore.read_bool_value ⟨⟨[], [("flags", [("a", "yes"), ("b", "no")])]⟩, "f.ini"⟩
      "flags.a" false = Except.ok true ∧
    IniStore.read_bool_value ⟨⟨[], [("flags", [("a", "yes"), ("b", "no")])]⟩, "f.ini"⟩
      "flags.b" false = Except.ok false := by
  obtain ⟨h1, h2, -⟩ := C7_bool_encodings rawReadSample "a" false "zz"
    ⟨⟨[], [("flags", [("a", "yes"), ("b", "no")])]⟩, "f.ini"⟩ "flags.a" "flags" "a"
    [("a", "yes"), ("b", "no")] "yes" false (by decide) (by decide) (by decide)
    (by decide)
  obtain ⟨-, -, g3⟩ := C7_bool_encodings rawReadSample "a" false "zz"
    ⟨⟨[], [("flags", [("a", "yes"), ("b", "no")])]⟩, "f.ini"⟩ "flags.b" "flags" "b"
    [("a", "yes"), ("b", "no")] "no" false (by decide) (by decide) (by decide)
    (by decide)
  exact ⟨h1, h2 (Or.inl rfl), g3 (Or.inl rfl)⟩
